import Mathlib

/-!
Shallow embedding of the DMA-channel layer (`src/dma/channels.rs`) and the
I2C clock configuration constructor (`src/i2c/clock.rs`) of the
rust-lpc82x-hal repository, together with proofs of the specified
properties of that code.

Modelling conventions:
* Machine integers (`u32`, `u16`, `u8`, `usize`) are modelled as `Nat`; all
  register operations here are bitwise, so no overflow can occur.
* A hardware register write performed by the Rust code is modelled as a
  `WriteEvent` (which register, which 32-bit value); each method of
  `SharedRegisters` is translated to the list of write events its body
  performs, in source order.  Read-only queries are translated to pure
  functions of the register state.
* The effective register state of the hardware is a `DmaState`; the
  write-1-to-set / write-1-to-clear semantics of the shared bank (spec §6,
  "Register bit layout") is the step function `applyWrite`.
* A Rust panic (`assert!`) is modelled as `Option.none`.
-/

namespace Lpc8xx

/-- The `Instance` trait of `src/dma/channels.rs`: the compile-time
capability descriptor of one DMA channel, carrying its index and its
single-bit flag (the two associated register types carry no data). -/
structure Instance where
  INDEX : Nat
  FLAG : Nat
  deriving DecidableEq

/-- Modelled from the spec: the concrete per-channel implementations of the
`Instance` trait (one descriptor per physical channel) are not among the
provided sources — only the trait declaration is.  The spec states that the
descriptor of channel `i` has `index = i` and `flag = 1 << i`, with at most
32 channels for the 32-bit shared bank. -/
def channelDescriptor (i : Nat) : Instance :=
  { INDEX := i, FLAG := 1 <<< i }

/-- The writable registers of the shared DMA register bank
(`ACTIVE0` and `BUSY0` are only ever read by the code). -/
inductive RegId
  | enableset0
  | settrig0
  | intenset0
  | intenclr0
  | errint0
  | inta0
  | intb0
  deriving DecidableEq

/-- One hardware register write performed by the code: the target register
and the 32-bit value placed on the bus. -/
structure WriteEvent where
  reg : RegId
  value : Nat
  deriving DecidableEq

/-- The effective bit state of the shared DMA register bank.  `inten0` is
the single underlying interrupt-enable state addressed by both the
`INTENSET0` and `INTENCLR0` write addresses. -/
structure DmaState where
  active0 : Nat
  busy0 : Nat
  enableset0 : Nat
  errint0 : Nat
  inta0 : Nat
  intb0 : Nat
  inten0 : Nat
  settrig0 : Nat
  deriving DecidableEq

/-- Write-1-to-clear hardware semantics: every bit written as 1 is cleared,
every bit written as 0 is untouched (`x AND NOT v`, expressed with
kernel-accelerated operations). -/
def w1c (x v : Nat) : Nat := x ^^^ (x &&& v)

/-- Hardware semantics of one register write (spec §6: "set" registers only
assert bits written as 1; flag-clear registers clear bits written as 1). -/
def applyWrite (s : DmaState) (e : WriteEvent) : DmaState :=
  match e.reg with
  | RegId.enableset0 => { s with enableset0 := s.enableset0 ||| e.value }
  | RegId.settrig0 => { s with settrig0 := s.settrig0 ||| e.value }
  | RegId.intenset0 => { s with inten0 := s.inten0 ||| e.value }
  | RegId.intenclr0 => { s with inten0 := w1c s.inten0 e.value }
  | RegId.errint0 => { s with errint0 := w1c s.errint0 e.value }
  | RegId.inta0 => { s with inta0 := w1c s.inta0 e.value }
  | RegId.intb0 => { s with intb0 := w1c s.intb0 e.value }

/-- Hardware semantics of a sequence of register writes, first to last. -/
def applyWrites (s : DmaState) (es : List WriteEvent) : DmaState :=
  es.foldl applyWrite s

/-- The tuple of the effective bit of every shared register `j`: used to state
frame conditions ("bit `j` of every shared register is unchanged"). -/
def bitsAt (s : DmaState) (j : Nat) : List Bool :=
  [s.active0.testBit j, s.busy0.testBit j, s.enableset0.testBit j,
   s.errint0.testBit j, s.inta0.testBit j, s.intb0.testBit j,
   s.inten0.testBit j, s.settrig0.testBit j]

namespace SharedRegisters

/-- `SharedRegisters::enable_interrupts`: one write of `C::FLAG` to
`INTENSET0`. -/
def enable_interrupts (C : Instance) : List WriteEvent :=
  [{ reg := RegId.intenset0, value := C.FLAG }]

/-- `SharedRegisters::disable_interrupts`: one write of `C::FLAG` to
`INTENCLR0`. -/
def disable_interrupts (C : Instance) : List WriteEvent :=
  [{ reg := RegId.intenclr0, value := C.FLAG }]

/-- `SharedRegisters::enable`: one write of `C::FLAG` to `ENABLESET0`. -/
def enable (C : Instance) : List WriteEvent :=
  [{ reg := RegId.enableset0, value := C.FLAG }]

/-- `SharedRegisters::trigger`: one write of `C::FLAG` to `SETTRIG0`. -/
def trigger (C : Instance) : List WriteEvent :=
  [{ reg := RegId.settrig0, value := C.FLAG }]

/-- `SharedRegisters::reset_flags`: three writes of `C::FLAG`, to `ERRINT0`,
then `INTA0`, then `INTB0`, in the order of the source. -/
def reset_flags (C : Instance) : List WriteEvent :=
  [{ reg := RegId.errint0, value := C.FLAG },
   { reg := RegId.inta0, value := C.FLAG },
   { reg := RegId.intb0, value := C.FLAG }]

/-- `SharedRegisters::is_active`: `active0.read() & C::FLAG != 0`. -/
def is_active (C : Instance) (s : DmaState) : Bool :=
  s.active0 &&& C.FLAG != 0

/-- `SharedRegisters::is_busy`: `busy0.read() & C::FLAG != 0`. -/
def is_busy (C : Instance) (s : DmaState) : Bool :=
  s.busy0 &&& C.FLAG != 0

/-- `SharedRegisters::error_interrupt_fired`:
`errint0.read() & C::FLAG != 0`. -/
def error_interrupt_fired (C : Instance) (s : DmaState) : Bool :=
  s.errint0 &&& C.FLAG != 0

/-- `SharedRegisters::a_interrupt_fired`: `inta0.read() & C::FLAG != 0`. -/
def a_interrupt_fired (C : Instance) (s : DmaState) : Bool :=
  s.inta0 &&& C.FLAG != 0

/-- `SharedRegisters::b_interrupt_fired`: `intb0.read() & C::FLAG != 0`. -/
def b_interrupt_fired (C : Instance) (s : DmaState) : Bool :=
  s.intb0 &&& C.FLAG != 0

end SharedRegisters

/-- The `Disabled` lifecycle state marker (a unit struct in the source). -/
structure Disabled where
  deriving DecidableEq

/-- The `Enabled` lifecycle state marker (a newtype around `()` in the
source). -/
structure Enabled where
  unit : Unit
  deriving DecidableEq

/-- The `Channel<C, S>` handle: capability descriptor value, lifecycle state
tag, the exclusively owned transfer-descriptor reference, and the two
private register proxies.  The reference and the proxies carry no useful
bit state of their own in the source; they are modelled as opaque
identities (`Nat`) so that "the same field is carried over" is expressible. -/
structure Channel (S : Type) where
  ty : Instance
  state : S
  descriptor : Nat
  cfg : Nat
  xfercfg : Nat

/-- `Channel::<C, Disabled>::enable`: consumes the handle, rebuilds it field
by field with the `Enabled(())` tag; its body performs no register access,
so it emits no write events and does not touch any `DmaState`. -/
def Channel.enable (ch : Channel Disabled) : Channel Enabled :=
  { ty := ch.ty, state := { unit := () }, descriptor := ch.descriptor,
    cfg := ch.cfg, xfercfg := ch.xfercfg }

/-- `Channel::<C, Enabled>::disable`: consumes the handle, rebuilds it field
by field with the `Disabled` tag; no register access. -/
def Channel.disable (ch : Channel Enabled) : Channel Disabled :=
  { ty := ch.ty, state := {}, descriptor := ch.descriptor,
    cfg := ch.cfg, xfercfg := ch.xfercfg }

/-- `Channel::<C, Enabled>::enable_interrupts`: delegates to the shared-bank
accessor scoped to the capability of this channel. -/
def Channel.enable_interrupts (ch : Channel Enabled) : List WriteEvent :=
  SharedRegisters.enable_interrupts ch.ty

/-- `Channel::<C, Enabled>::disable_interrupts`: delegates to the shared-bank
accessor scoped to the capability of this channel. -/
def Channel.disable_interrupts (ch : Channel Enabled) : List WriteEvent :=
  SharedRegisters.disable_interrupts ch.ty

/-- The lifecycle states of a channel handle, as values. -/
inductive ChannelState
  | Disabled
  | Enabled
  deriving DecidableEq

/-- The methods defined on the `Channel` type in `src/dma/channels.rs`. -/
inductive ChannelMethod
  | enable
  | disable
  | enable_interrupts
  | disable_interrupts
  deriving DecidableEq

/-- Which methods each `impl` block of the source offers: `enable` only on
`Channel<C, Disabled>`; `disable`, `enable_interrupts` and
`disable_interrupts` only on `Channel<C, Enabled>`. -/
def methodAvailable (st : ChannelState) (m : ChannelMethod) : Bool :=
  match st, m with
  | ChannelState.Disabled, ChannelMethod.enable => true
  | ChannelState.Enabled, ChannelMethod.disable => true
  | ChannelState.Enabled, ChannelMethod.enable_interrupts => true
  | ChannelState.Enabled, ChannelMethod.disable_interrupts => true
  | _, _ => false

/-- The operations of the shared register bank accessor. -/
inductive SharedOp
  | enable
  | trigger
  | enable_interrupts
  | disable_interrupts
  | reset_flags
  | is_active
  | is_busy
  | error_interrupt_fired
  | a_interrupt_fired
  | b_interrupt_fired
  deriving DecidableEq

/-- Whether an operation of the shared bank is a read-only boolean query. -/
def SharedOp.isQuery : SharedOp → Bool
  | SharedOp.is_active => true
  | SharedOp.is_busy => true
  | SharedOp.error_interrupt_fired => true
  | SharedOp.a_interrupt_fired => true
  | SharedOp.b_interrupt_fired => true
  | _ => false

/-- Uniform runner for the shared-bank operations.  A Rust panic would be
`none`; none of the translated bodies contains a panic path, so every
branch is `some`.  A register-write operation returns the updated state and
no value; a query returns the state unchanged and a boolean. -/
def runShared (C : Instance) (op : SharedOp) (s : DmaState) :
    Option (DmaState × Option Bool) :=
  match op with
  | SharedOp.enable => some (applyWrites s (SharedRegisters.enable C), none)
  | SharedOp.trigger => some (applyWrites s (SharedRegisters.trigger C), none)
  | SharedOp.enable_interrupts =>
      some (applyWrites s (SharedRegisters.enable_interrupts C), none)
  | SharedOp.disable_interrupts =>
      some (applyWrites s (SharedRegisters.disable_interrupts C), none)
  | SharedOp.reset_flags =>
      some (applyWrites s (SharedRegisters.reset_flags C), none)
  | SharedOp.is_active => some (s, some (SharedRegisters.is_active C s))
  | SharedOp.is_busy => some (s, some (SharedRegisters.is_busy C s))
  | SharedOp.error_interrupt_fired =>
      some (s, some (SharedRegisters.error_interrupt_fired C s))
  | SharedOp.a_interrupt_fired =>
      some (s, some (SharedRegisters.a_interrupt_fired C s))
  | SharedOp.b_interrupt_fired =>
      some (s, some (SharedRegisters.b_interrupt_fired C s))

/-- The I2C clock configuration struct of `src/i2c/clock.rs` (the phantom
clock-source parameter carries no data). -/
structure Clock where
  divval : Nat
  mstsclhigh : Nat
  mstscllow : Nat
  deriving DecidableEq

/-- `Clock::new` of `src/i2c/clock.rs`: two `assert!`s (modelled as `none`
on failure), then the struct is built with `divval` unchanged and the two
SCL fields decremented by 2. -/
def Clock.new (divval mstsclhigh mstscllow : Nat) : Option Clock :=
  if 1 < mstsclhigh && mstsclhigh < 10 then
    if 1 < mstscllow && mstscllow < 10 then
      some { divval := divval, mstsclhigh := mstsclhigh - 2,
             mstscllow := mstscllow - 2 }
    else
      none
  else
    none

/-! ### Helper lemmas -/

/-- Write-1-to-clear acts bitwise: a bit survives exactly when it was set
and was not written as 1. -/
theorem testBit_w1c (x v j : Nat) :
    (w1c x v).testBit j = (x.testBit j && !(v.testBit j)) := by
  cases hx : x.testBit j <;> cases hv : v.testBit j <;>
    simp [w1c, Nat.testBit_xor, Nat.testBit_land, hx, hv]

/-- Masking with a single bit is nonzero exactly when that bit is set. -/
theorem land_two_pow_ne_zero (x i : Nat) :
    (x &&& 2 ^ i != 0) = x.testBit i := by
  rw [Nat.and_two_pow]
  cases hx : x.testBit i <;> simp [hx, (Nat.two_pow_pos i).ne']

/-- A single-bit flag has its own index set. -/
theorem flag_testBit_self (C : Instance) (hC : C.FLAG = 2 ^ C.INDEX) :
    C.FLAG.testBit C.INDEX = true := by
  rw [hC]; exact Nat.testBit_two_pow_self

/-- A single-bit flag has every other index clear. -/
theorem flag_testBit_other (C : Instance) (j : Nat)
    (hC : C.FLAG = 2 ^ C.INDEX) (hj : j ≠ C.INDEX) :
    C.FLAG.testBit j = false := by
  rw [hC, Nat.testBit_two_pow]
  simp [Ne.symm hj]

/-! ### Claims -/

/-- C1: every shared-bank write operation of `SharedRegisters` (enable,
trigger, enable_interrupts, disable_interrupts, reset_flags) writes exactly
`C::FLAG` to its target register(s); consequently, under the write-1-to-set
/ write-1-to-clear hardware semantics, bit `j` of every shared register is
unchanged for every `j ≠ C::INDEX`. -/
theorem shared_writes_only_flag (C : Instance) (s : DmaState) (j : Nat)
    (hC : C.FLAG = 2 ^ C.INDEX) (hj : j ≠ C.INDEX) :
    ((SharedRegisters.enable C).map WriteEvent.value = [C.FLAG] ∧
     (SharedRegisters.trigger C).map WriteEvent.value = [C.FLAG] ∧
     (SharedRegisters.enable_interrupts C).map WriteEvent.value = [C.FLAG] ∧
     (SharedRegisters.disable_interrupts C).map WriteEvent.value = [C.FLAG] ∧
     (SharedRegisters.reset_flags C).map WriteEvent.value
       = [C.FLAG, C.FLAG, C.FLAG]) ∧
    (bitsAt (applyWrites s (SharedRegisters.enable C)) j = bitsAt s j ∧
     bitsAt (applyWrites s (SharedRegisters.trigger C)) j = bitsAt s j ∧
     bitsAt (applyWrites s (SharedRegisters.enable_interrupts C)) j
       = bitsAt s j ∧
     bitsAt (applyWrites s (SharedRegisters.disable_interrupts C)) j
       = bitsAt s j ∧
     bitsAt (applyWrites s (SharedRegisters.reset_flags C)) j = bitsAt s j) := by
  have hflag : C.FLAG.testBit j = false := flag_testBit_other C j hC hj
  refine ⟨⟨rfl, rfl, rfl, rfl, rfl⟩, ?_, ?_, ?_, ?_, ?_⟩ <;>
    simp [bitsAt, applyWrites, applyWrite, SharedRegisters.enable,
      SharedRegisters.trigger, SharedRegisters.enable_interrupts,
      SharedRegisters.disable_interrupts, SharedRegisters.reset_flags,
      Nat.testBit_lor, testBit_w1c, hflag]

/-- Witness for C1 at channel 2, a concrete register state, and bit 0. -/
theorem shared_writes_only_flag_witness :
    ((channelDescriptor 2).FLAG = 2 ^ (channelDescriptor 2).INDEX ∧
     (0 : Nat) ≠ (channelDescriptor 2).INDEX) ∧
    (((SharedRegisters.enable (channelDescriptor 2)).map WriteEvent.value
        = [(channelDescriptor 2).FLAG] ∧
      (SharedRegisters.trigger (channelDescriptor 2)).map WriteEvent.value
        = [(channelDescriptor 2).FLAG] ∧
      (SharedRegisters.enable_interrupts (channelDescriptor 2)).map
          WriteEvent.value = [(channelDescriptor 2).FLAG] ∧
      (SharedRegisters.disable_interrupts (channelDescriptor 2)).map
          WriteEvent.value = [(channelDescriptor 2).FLAG] ∧
      (SharedRegisters.reset_flags (channelDescriptor 2)).map WriteEvent.value
        = [(channelDescriptor 2).FLAG, (channelDescriptor 2).FLAG,
           (channelDescriptor 2).FLAG]) ∧
     (bitsAt (applyWrites ⟨1, 2, 3, 4, 5, 6, 7, 8⟩
          (SharedRegisters.enable (channelDescriptor 2))) 0
        = bitsAt ⟨1, 2, 3, 4, 5, 6, 7, 8⟩ 0 ∧
      bitsAt (applyWrites ⟨1, 2, 3, 4, 5, 6, 7, 8⟩
          (SharedRegisters.trigger (channelDescriptor 2))) 0
        = bitsAt ⟨1, 2, 3, 4, 5, 6, 7, 8⟩ 0 ∧
      bitsAt (applyWrites ⟨1, 2, 3, 4, 5, 6, 7, 8⟩
          (SharedRegisters.enable_interrupts (channelDescriptor 2))) 0
        = bitsAt ⟨1, 2, 3, 4, 5, 6, 7, 8⟩ 0 ∧
      bitsAt (applyWrites ⟨1, 2, 3, 4, 5, 6, 7, 8⟩
          (SharedRegisters.disable_interrupts (channelDescriptor 2))) 0
        = bitsAt ⟨1, 2, 3, 4, 5, 6, 7, 8⟩ 0 ∧
      bitsAt (applyWrites ⟨1, 2, 3, 4, 5, 6, 7, 8⟩
          (SharedRegisters.reset_flags (channelDescriptor 2))) 0
        = bitsAt ⟨1, 2, 3, 4, 5, 6, 7, 8⟩ 0)) :=
  ⟨⟨by decide, by decide⟩,
   shared_writes_only_flag (channelDescriptor 2) ⟨1, 2, 3, 4, 5, 6, 7, 8⟩ 0
     (by decide) (by decide)⟩

/-- C2: every channel descriptor has `FLAG = 1 <<< INDEX` (hence exactly one
bit set, namely bit `INDEX`), the flags of distinct channels are distinct,
and every flag fits in the 32-bit shared register bank. -/
theorem channel_flags_one_bit_distinct (i j : Nat)
    (hi : i < 32) (hj : j < 32) (hij : i ≠ j) :
    (channelDescriptor i).FLAG = 1 <<< (channelDescriptor i).INDEX ∧
    (∀ k, (channelDescriptor i).FLAG.testBit k = decide (k = i)) ∧
    (channelDescriptor i).FLAG ≠ (channelDescriptor j).FLAG ∧
    (channelDescriptor i).FLAG < 2 ^ 32 := by
  refine ⟨rfl, ?_, ?_, ?_⟩
  · intro k
    simp [channelDescriptor, Nat.shiftLeft_eq, Nat.testBit_two_pow, eq_comm]
  · simp only [channelDescriptor, Nat.shiftLeft_eq, Nat.one_mul]
    intro h
    exact hij (Nat.pow_right_injective (by norm_num) h)
  · simp only [channelDescriptor, Nat.shiftLeft_eq, Nat.one_mul]
    exact Nat.pow_lt_pow_right (by norm_num) hi

/-- Witness for C2 at channels 1 and 3. -/
theorem channel_flags_one_bit_distinct_witness :
    ((1 : Nat) < 32 ∧ (3 : Nat) < 32 ∧ (1 : Nat) ≠ 3) ∧
    ((channelDescriptor 1).FLAG = 1 <<< (channelDescriptor 1).INDEX ∧
     (∀ k, (channelDescriptor 1).FLAG.testBit k = decide (k = 1)) ∧
     (channelDescriptor 1).FLAG ≠ (channelDescriptor 3).FLAG ∧
     (channelDescriptor 1).FLAG < 2 ^ 32) :=
  ⟨⟨by decide, by decide, by decide⟩,
   channel_flags_one_bit_distinct 1 3 (by decide) (by decide) (by decide)⟩

/-- C3: for every prior state of the error, interrupt-A and interrupt-B
flag registers, `reset_flags()` for channel `C` clears bit `C::INDEX` in
all three flag registers, leaves every bit `j ≠ C::INDEX` of those
registers unchanged (even if set), and leaves every other register of the
bank untouched. -/
theorem reset_flags_clears_only_channel (C : Instance) (s : DmaState)
    (j : Nat) (hC : C.FLAG = 2 ^ C.INDEX) (hj : j ≠ C.INDEX) :
    ((applyWrites s (SharedRegisters.reset_flags C)).errint0.testBit C.INDEX
       = false ∧
     (applyWrites s (SharedRegisters.reset_flags C)).inta0.testBit C.INDEX
       = false ∧
     (applyWrites s (SharedRegisters.reset_flags C)).intb0.testBit C.INDEX
       = false) ∧
    ((applyWrites s (SharedRegisters.reset_flags C)).errint0.testBit j
       = s.errint0.testBit j ∧
     (applyWrites s (SharedRegisters.reset_flags C)).inta0.testBit j
       = s.inta0.testBit j ∧
     (applyWrites s (SharedRegisters.reset_flags C)).intb0.testBit j
       = s.intb0.testBit j) ∧
    ((applyWrites s (SharedRegisters.reset_flags C)).active0 = s.active0 ∧
     (applyWrites s (SharedRegisters.reset_flags C)).busy0 = s.busy0 ∧
     (applyWrites s (SharedRegisters.reset_flags C)).enableset0
       = s.enableset0 ∧
     (applyWrites s (SharedRegisters.reset_flags C)).inten0 = s.inten0 ∧
     (applyWrites s (SharedRegisters.reset_flags C)).settrig0 = s.settrig0) := by
  have h1 : C.FLAG.testBit C.INDEX = true := flag_testBit_self C hC
  have h2 : C.FLAG.testBit j = false := flag_testBit_other C j hC hj
  refine ⟨⟨?_, ?_, ?_⟩, ⟨?_, ?_, ?_⟩, rfl, rfl, rfl, rfl, rfl⟩ <;>
    simp [applyWrites, applyWrite, SharedRegisters.reset_flags,
      testBit_w1c, h1, h2]

/-- Witness for C3 at channel 1, all flag bits initially set, and bit 3. -/
theorem reset_flags_clears_only_channel_witness :
    ((channelDescriptor 1).FLAG = 2 ^ (channelDescriptor 1).INDEX ∧
     (3 : Nat) ≠ (channelDescriptor 1).INDEX) ∧
    (((applyWrites ⟨0, 0, 0, 15, 15, 15, 0, 0⟩
          (SharedRegisters.reset_flags (channelDescriptor 1))).errint0.testBit
          (channelDescriptor 1).INDEX = false ∧
      (applyWrites ⟨0, 0, 0, 15, 15, 15, 0, 0⟩
          (SharedRegisters.reset_flags (channelDescriptor 1))).inta0.testBit
          (channelDescriptor 1).INDEX = false ∧
      (applyWrites ⟨0, 0, 0, 15, 15, 15, 0, 0⟩
          (SharedRegisters.reset_flags (channelDescriptor 1))).intb0.testBit
          (channelDescriptor 1).INDEX = false) ∧
     ((applyWrites ⟨0, 0, 0, 15, 15, 15, 0, 0⟩
          (SharedRegisters.reset_flags (channelDescriptor 1))).errint0.testBit 3
        = (15 : Nat).testBit 3 ∧
      (applyWrites ⟨0, 0, 0, 15, 15, 15, 0, 0⟩
          (SharedRegisters.reset_flags (channelDescriptor 1))).inta0.testBit 3
        = (15 : Nat).testBit 3 ∧
      (applyWrites ⟨0, 0, 0, 15, 15, 15, 0, 0⟩
          (SharedRegisters.reset_flags (channelDescriptor 1))).intb0.testBit 3
        = (15 : Nat).testBit 3) ∧
     ((applyWrites ⟨0, 0, 0, 15, 15, 15, 0, 0⟩
          (SharedRegisters.reset_flags (channelDescriptor 1))).active0 = 0 ∧
      (applyWrites ⟨0, 0, 0, 15, 15, 15, 0, 0⟩
          (SharedRegisters.reset_flags (channelDescriptor 1))).busy0 = 0 ∧
      (applyWrites ⟨0, 0, 0, 15, 15, 15, 0, 0⟩
          (SharedRegisters.reset_flags (channelDescriptor 1))).enableset0 = 0 ∧
      (applyWrites ⟨0, 0, 0, 15, 15, 15, 0, 0⟩
          (SharedRegisters.reset_flags (channelDescriptor 1))).inten0 = 0 ∧
      (applyWrites ⟨0, 0, 0, 15, 15, 15, 0, 0⟩
          (SharedRegisters.reset_flags (channelDescriptor 1))).settrig0 = 0)) :=
  ⟨⟨by decide, by decide⟩,
   reset_flags_clears_only_channel (channelDescriptor 1)
     ⟨0, 0, 0, 15, 15, 15, 0, 0⟩ 3 (by decide) (by decide)⟩

/-- C4: `enable_interrupts()` followed by `disable_interrupts()` on the
same enabled channel handle leaves the bit of that channel clear in the
effective interrupt-enable state, leaves every other bit of that state
at its initial value, and leaves every other register untouched. -/
theorem enable_then_disable_interrupts (ch : Channel Enabled) (s : DmaState)
    (j : Nat) (hC : ch.ty.FLAG = 2 ^ ch.ty.INDEX) (hj : j ≠ ch.ty.INDEX) :
    ((applyWrites s
        (ch.enable_interrupts ++ ch.disable_interrupts)).inten0.testBit
        ch.ty.INDEX = false ∧
     (applyWrites s
        (ch.enable_interrupts ++ ch.disable_interrupts)).inten0.testBit j
       = s.inten0.testBit j) ∧
    ((applyWrites s (ch.enable_interrupts ++ ch.disable_interrupts)).active0
       = s.active0 ∧
     (applyWrites s (ch.enable_interrupts ++ ch.disable_interrupts)).busy0
       = s.busy0 ∧
     (applyWrites s
        (ch.enable_interrupts ++ ch.disable_interrupts)).enableset0
       = s.enableset0 ∧
     (applyWrites s (ch.enable_interrupts ++ ch.disable_interrupts)).errint0
       = s.errint0 ∧
     (applyWrites s (ch.enable_interrupts ++ ch.disable_interrupts)).inta0
       = s.inta0 ∧
     (applyWrites s (ch.enable_interrupts ++ ch.disable_interrupts)).intb0
       = s.intb0 ∧
     (applyWrites s (ch.enable_interrupts ++ ch.disable_interrupts)).settrig0
       = s.settrig0) := by
  have h1 : ch.ty.FLAG.testBit ch.ty.INDEX = true := flag_testBit_self _ hC
  have h2 : ch.ty.FLAG.testBit j = false := flag_testBit_other _ j hC hj
  refine ⟨⟨?_, ?_⟩, rfl, rfl, rfl, rfl, rfl, rfl, rfl⟩ <;>
    simp [applyWrites, applyWrite, Channel.enable_interrupts,
      Channel.disable_interrupts, SharedRegisters.enable_interrupts,
      SharedRegisters.disable_interrupts, testBit_w1c, Nat.testBit_lor,
      h1, h2]

/-- Witness for C4 at channel 0, interrupt-enable initially `0b1010`, and
bit 1. -/
theorem enable_then_disable_interrupts_witness :
    ((Channel.mk (S := Enabled) (channelDescriptor 0) ⟨()⟩ 0 0 0).ty.FLAG
       = 2 ^ (Channel.mk (S := Enabled)
           (channelDescriptor 0) ⟨()⟩ 0 0 0).ty.INDEX ∧
     (1 : Nat) ≠ (Channel.mk (S := Enabled)
         (channelDescriptor 0) ⟨()⟩ 0 0 0).ty.INDEX) ∧
    (((applyWrites ⟨0, 0, 0, 0, 0, 0, 10, 0⟩
         ((Channel.mk (S := Enabled)
             (channelDescriptor 0) ⟨()⟩ 0 0 0).enable_interrupts ++
          (Channel.mk (S := Enabled)
             (channelDescriptor 0) ⟨()⟩ 0 0 0).disable_interrupts)).inten0.testBit
         (Channel.mk (S := Enabled)
            (channelDescriptor 0) ⟨()⟩ 0 0 0).ty.INDEX = false ∧
      (applyWrites ⟨0, 0, 0, 0, 0, 0, 10, 0⟩
         ((Channel.mk (S := Enabled)
             (channelDescriptor 0) ⟨()⟩ 0 0 0).enable_interrupts ++
          (Channel.mk (S := Enabled)
             (channelDescriptor 0) ⟨()⟩ 0 0 0).disable_interrupts)).inten0.testBit 1
        = (10 : Nat).testBit 1) ∧
     ((applyWrites ⟨0, 0, 0, 0, 0, 0, 10, 0⟩
         ((Channel.mk (S := Enabled)
             (channelDescriptor 0) ⟨()⟩ 0 0 0).enable_interrupts ++
          (Channel.mk (S := Enabled)
             (channelDescriptor 0) ⟨()⟩ 0 0 0).disable_interrupts)).active0 = 0 ∧
      (applyWrites ⟨0, 0, 0, 0, 0, 0, 10, 0⟩
         ((Channel.mk (S := Enabled)
             (channelDescriptor 0) ⟨()⟩ 0 0 0).enable_interrupts ++
          (Channel.mk (S := Enabled)
             (channelDescriptor 0) ⟨()⟩ 0 0 0).disable_interrupts)).busy0 = 0 ∧
      (applyWrites ⟨0, 0, 0, 0, 0, 0, 10, 0⟩
         ((Channel.mk (S := Enabled)
             (channelDescriptor 0) ⟨()⟩ 0 0 0).enable_interrupts ++
          (Channel.mk (S := Enabled)
             (channelDescriptor 0) ⟨()⟩ 0 0 0).disable_interrupts)).enableset0 = 0 ∧
      (applyWrites ⟨0, 0, 0, 0, 0, 0, 10, 0⟩
         ((Channel.mk (S := Enabled)
             (channelDescriptor 0) ⟨()⟩ 0 0 0).enable_interrupts ++
          (Channel.mk (S := Enabled)
             (channelDescriptor 0) ⟨()⟩ 0 0 0).disable_interrupts)).errint0 = 0 ∧
      (applyWrites ⟨0, 0, 0, 0, 0, 0, 10, 0⟩
         ((Channel.mk (S := Enabled)
             (channelDescriptor 0) ⟨()⟩ 0 0 0).enable_interrupts ++
          (Channel.mk (S := Enabled)
             (channelDescriptor 0) ⟨()⟩ 0 0 0).disable_interrupts)).inta0 = 0 ∧
      (applyWrites ⟨0, 0, 0, 0, 0, 0, 10, 0⟩
         ((Channel.mk (S := Enabled)
             (channelDescriptor 0) ⟨()⟩ 0 0 0).enable_interrupts ++
          (Channel.mk (S := Enabled)
             (channelDescriptor 0) ⟨()⟩ 0 0 0).disable_interrupts)).intb0 = 0 ∧
      (applyWrites ⟨0, 0, 0, 0, 0, 0, 10, 0⟩
         ((Channel.mk (S := Enabled)
             (channelDescriptor 0) ⟨()⟩ 0 0 0).enable_interrupts ++
          (Channel.mk (S := Enabled)
             (channelDescriptor 0) ⟨()⟩ 0 0 0).disable_interrupts)).settrig0 = 0)) :=
  ⟨⟨by decide, by decide⟩,
   enable_then_disable_interrupts
     (Channel.mk (S := Enabled) (channelDescriptor 0) ⟨()⟩ 0 0 0)
     ⟨0, 0, 0, 0, 0, 0, 10, 0⟩ 1 (by decide) (by decide)⟩

/-- C5: `Channel::enable` on a disabled handle always succeeds, performs no
register access (it is a pure reconstruction of the handle, emitting no
write event), and carries over the capability descriptor, transfer
descriptor reference and both private register proxies; symmetrically for
`Channel::disable` on an enabled handle; and `disable` after `enable`
restores a handle equal to the original in every field. -/
theorem channel_enable_disable_roundtrip (ch : Channel Disabled)
    (e : Channel Enabled) :
    (ch.enable.ty = ch.ty ∧ ch.enable.descriptor = ch.descriptor ∧
     ch.enable.cfg = ch.cfg ∧ ch.enable.xfercfg = ch.xfercfg) ∧
    (e.disable.ty = e.ty ∧ e.disable.descriptor = e.descriptor ∧
     e.disable.cfg = e.cfg ∧ e.disable.xfercfg = e.xfercfg) ∧
    ch.enable.disable = ch ∧ e.disable.enable = e := by
  obtain ⟨ty, ⟨⟩, d, c, x⟩ := ch
  obtain ⟨ty2, ⟨⟨⟩⟩, d2, c2, x2⟩ := e
  exact ⟨⟨rfl, rfl, rfl, rfl⟩, ⟨rfl, rfl, rfl, rfl⟩, rfl, rfl⟩

/-- C6: each of the five query operations returns `true` exactly when bit
`C::INDEX` is set in the corresponding register, and (as recorded by the
uniform runner) leaves the whole register state unchanged. -/
theorem queries_reflect_channel_bit (C : Instance) (s : DmaState)
    (hC : C.FLAG = 2 ^ C.INDEX) :
    (SharedRegisters.is_active C s = s.active0.testBit C.INDEX ∧
     SharedRegisters.is_busy C s = s.busy0.testBit C.INDEX ∧
     SharedRegisters.error_interrupt_fired C s
       = s.errint0.testBit C.INDEX ∧
     SharedRegisters.a_interrupt_fired C s = s.inta0.testBit C.INDEX ∧
     SharedRegisters.b_interrupt_fired C s = s.intb0.testBit C.INDEX) ∧
    (runShared C SharedOp.is_active s
       = some (s, some (SharedRegisters.is_active C s)) ∧
     runShared C SharedOp.is_busy s
       = some (s, some (SharedRegisters.is_busy C s)) ∧
     runShared C SharedOp.error_interrupt_fired s
       = some (s, some (SharedRegisters.error_interrupt_fired C s)) ∧
     runShared C SharedOp.a_interrupt_fired s
       = some (s, some (SharedRegisters.a_interrupt_fired C s)) ∧
     runShared C SharedOp.b_interrupt_fired s
       = some (s, some (SharedRegisters.b_interrupt_fired C s))) := by
  refine ⟨⟨?_, ?_, ?_, ?_, ?_⟩, rfl, rfl, rfl, rfl, rfl⟩ <;>
    simp [SharedRegisters.is_active, SharedRegisters.is_busy,
      SharedRegisters.error_interrupt_fired,
      SharedRegisters.a_interrupt_fired, SharedRegisters.b_interrupt_fired,
      hC, land_two_pow_ne_zero]

/-- Witness for C6 at channel 1 and a concrete register state. -/
theorem queries_reflect_channel_bit_witness :
    ((channelDescriptor 1).FLAG = 2 ^ (channelDescriptor 1).INDEX) ∧
    ((SharedRegisters.is_active (channelDescriptor 1) ⟨3, 5, 9, 17, 33, 64, 2, 6⟩
        = (3 : Nat).testBit (channelDescriptor 1).INDEX ∧
      SharedRegisters.is_busy (channelDescriptor 1) ⟨3, 5, 9, 17, 33, 64, 2, 6⟩
        = (5 : Nat).testBit (channelDescriptor 1).INDEX ∧
      SharedRegisters.error_interrupt_fired (channelDescriptor 1)
          ⟨3, 5, 9, 17, 33, 64, 2, 6⟩
        = (17 : Nat).testBit (channelDescriptor 1).INDEX ∧
      SharedRegisters.a_interrupt_fired (channelDescriptor 1)
          ⟨3, 5, 9, 17, 33, 64, 2, 6⟩
        = (33 : Nat).testBit (channelDescriptor 1).INDEX ∧
      SharedRegisters.b_interrupt_fired (channelDescriptor 1)
          ⟨3, 5, 9, 17, 33, 64, 2, 6⟩
        = (64 : Nat).testBit (channelDescriptor 1).INDEX) ∧
     (runShared (channelDescriptor 1) SharedOp.is_active
          ⟨3, 5, 9, 17, 33, 64, 2, 6⟩
        = some (⟨3, 5, 9, 17, 33, 64, 2, 6⟩,
            some (SharedRegisters.is_active (channelDescriptor 1)
              ⟨3, 5, 9, 17, 33, 64, 2, 6⟩)) ∧
      runShared (channelDescriptor 1) SharedOp.is_busy
          ⟨3, 5, 9, 17, 33, 64, 2, 6⟩
        = some (⟨3, 5, 9, 17, 33, 64, 2, 6⟩,
            some (SharedRegisters.is_busy (channelDescriptor 1)
              ⟨3, 5, 9, 17, 33, 64, 2, 6⟩)) ∧
      runShared (channelDescriptor 1) SharedOp.error_interrupt_fired
          ⟨3, 5, 9, 17, 33, 64, 2, 6⟩
        = some (⟨3, 5, 9, 17, 33, 64, 2, 6⟩,
            some (SharedRegisters.error_interrupt_fired (channelDescriptor 1)
              ⟨3, 5, 9, 17, 33, 64, 2, 6⟩)) ∧
      runShared (channelDescriptor 1) SharedOp.a_interrupt_fired
          ⟨3, 5, 9, 17, 33, 64, 2, 6⟩
        = some (⟨3, 5, 9, 17, 33, 64, 2, 6⟩,
            some (SharedRegisters.a_interrupt_fired (channelDescriptor 1)
              ⟨3, 5, 9, 17, 33, 64, 2, 6⟩)) ∧
      runShared (channelDescriptor 1) SharedOp.b_interrupt_fired
          ⟨3, 5, 9, 17, 33, 64, 2, 6⟩
        = some (⟨3, 5, 9, 17, 33, 64, 2, 6⟩,
            some (SharedRegisters.b_interrupt_fired (channelDescriptor 1)
              ⟨3, 5, 9, 17, 33, 64, 2, 6⟩)))) :=
  ⟨by decide,
   queries_reflect_channel_bit (channelDescriptor 1)
     ⟨3, 5, 9, 17, 33, 64, 2, 6⟩ (by decide)⟩

/-- C7: a handle in the `Disabled` state offers no method other than
`enable` — in particular neither `enable_interrupts` nor
`disable_interrupts`, which exist only on the `Enabled`-tagged type. -/
theorem disabled_handle_offers_no_ops (m : ChannelMethod)
    (hm : m ≠ ChannelMethod.enable) :
    methodAvailable ChannelState.Disabled m = false ∧
    methodAvailable ChannelState.Enabled ChannelMethod.enable_interrupts
      = true ∧
    methodAvailable ChannelState.Enabled ChannelMethod.disable_interrupts
      = true := by
  cases m <;> simp_all [methodAvailable]

/-- Witness for C7 at the `enable_interrupts` method. -/
theorem disabled_handle_offers_no_ops_witness :
    (ChannelMethod.enable_interrupts ≠ ChannelMethod.enable) ∧
    (methodAvailable ChannelState.Disabled ChannelMethod.enable_interrupts
       = false ∧
     methodAvailable ChannelState.Enabled ChannelMethod.enable_interrupts
       = true ∧
     methodAvailable ChannelState.Enabled ChannelMethod.disable_interrupts
       = true) :=
  ⟨by decide,
   disabled_handle_offers_no_ops ChannelMethod.enable_interrupts (by decide)⟩

/-- C8: every operation of the channel layer is total: every shared-bank
operation evaluates to `some` result (a panic would be `none`), with a
boolean result exactly for the read-only queries and no result for the
writes, and both lifecycle transitions always produce a handle. -/
theorem all_operations_total (C : Instance) (op : SharedOp) (s : DmaState)
    (ch : Channel Disabled) (e : Channel Enabled) :
    (∃ p : DmaState × Option Bool,
        runShared C op s = some p ∧ p.2.isSome = op.isQuery) ∧
    (∃ e2 : Channel Enabled, ch.enable = e2) ∧
    (∃ d2 : Channel Disabled, e.disable = d2) := by
  refine ⟨?_, ⟨ch.enable, rfl⟩, ⟨e.disable, rfl⟩⟩
  cases op <;> exact ⟨_, rfl, rfl⟩

/-- C9: `reset_flags` is three sequential register writes in the fixed
source order error-flag, interrupt-A-flag, interrupt-B-flag, each of the
value `C::FLAG`, and no other register is touched; after the first write
(and still after the second) only a strict subset of the three registers
has been cleared: the error bit is already clear while `INTA0` and `INTB0`
are bit-for-bit untouched, and after the second write `INTB0` is still
untouched. -/
theorem reset_flags_sequential_order (C : Instance) (s : DmaState)
    (hC : C.FLAG = 2 ^ C.INDEX) :
    SharedRegisters.reset_flags C =
      [{ reg := RegId.errint0, value := C.FLAG },
       { reg := RegId.inta0, value := C.FLAG },
       { reg := RegId.intb0, value := C.FLAG }] ∧
    ((applyWrite s { reg := RegId.errint0, value := C.FLAG }).errint0.testBit
        C.INDEX = false ∧
     (applyWrite s { reg := RegId.errint0, value := C.FLAG }).inta0
       = s.inta0 ∧
     (applyWrite s { reg := RegId.errint0, value := C.FLAG }).intb0
       = s.intb0) ∧
    ((applyWrite (applyWrite s { reg := RegId.errint0, value := C.FLAG })
        { reg := RegId.inta0, value := C.FLAG }).errint0.testBit C.INDEX
       = false ∧
     (applyWrite (applyWrite s { reg := RegId.errint0, value := C.FLAG })
        { reg := RegId.inta0, value := C.FLAG }).inta0.testBit C.INDEX
       = false ∧
     (applyWrite (applyWrite s { reg := RegId.errint0, value := C.FLAG })
        { reg := RegId.inta0, value := C.FLAG }).intb0 = s.intb0) ∧
    ((applyWrites s (SharedRegisters.reset_flags C)).active0 = s.active0 ∧
     (applyWrites s (SharedRegisters.reset_flags C)).busy0 = s.busy0 ∧
     (applyWrites s (SharedRegisters.reset_flags C)).enableset0
       = s.enableset0 ∧
     (applyWrites s (SharedRegisters.reset_flags C)).inten0 = s.inten0 ∧
     (applyWrites s (SharedRegisters.reset_flags C)).settrig0 = s.settrig0) := by
  have h1 : C.FLAG.testBit C.INDEX = true := flag_testBit_self C hC
  refine ⟨rfl, ⟨?_, rfl, rfl⟩, ⟨?_, ?_, rfl⟩, rfl, rfl, rfl, rfl, rfl⟩ <;>
    simp [applyWrite, testBit_w1c, h1]

/-- Witness for C9 at channel 0 and a register state with all three flag
registers holding `0b111`. -/
theorem reset_flags_sequential_order_witness :
    ((channelDescriptor 0).FLAG = 2 ^ (channelDescriptor 0).INDEX) ∧
    (SharedRegisters.reset_flags (channelDescriptor 0) =
       [{ reg := RegId.errint0, value := (channelDescriptor 0).FLAG },
        { reg := RegId.inta0, value := (channelDescriptor 0).FLAG },
        { reg := RegId.intb0, value := (channelDescriptor 0).FLAG }] ∧
     ((applyWrite ⟨0, 0, 0, 7, 7, 7, 0, 0⟩
         { reg := RegId.errint0,
           value := (channelDescriptor 0).FLAG }).errint0.testBit
         (channelDescriptor 0).INDEX = false ∧
      (applyWrite ⟨0, 0, 0, 7, 7, 7, 0, 0⟩
         { reg := RegId.errint0, value := (channelDescriptor 0).FLAG }).inta0
        = 7 ∧
      (applyWrite ⟨0, 0, 0, 7, 7, 7, 0, 0⟩
         { reg := RegId.errint0, value := (channelDescriptor 0).FLAG }).intb0
        = 7) ∧
     ((applyWrite (applyWrite ⟨0, 0, 0, 7, 7, 7, 0, 0⟩
          { reg := RegId.errint0, value := (channelDescriptor 0).FLAG })
         { reg := RegId.inta0,
           value := (channelDescriptor 0).FLAG }).errint0.testBit
         (channelDescriptor 0).INDEX = false ∧
      (applyWrite (applyWrite ⟨0, 0, 0, 7, 7, 7, 0, 0⟩
          { reg := RegId.errint0, value := (channelDescriptor 0).FLAG })
         { reg := RegId.inta0,
           value := (channelDescriptor 0).FLAG }).inta0.testBit
         (channelDescriptor 0).INDEX = false ∧
      (applyWrite (applyWrite ⟨0, 0, 0, 7, 7, 7, 0, 0⟩
          { reg := RegId.errint0, value := (channelDescriptor 0).FLAG })
         { reg := RegId.inta0, value := (channelDescriptor 0).FLAG }).intb0
        = 7) ∧
     ((applyWrites ⟨0, 0, 0, 7, 7, 7, 0, 0⟩
          (SharedRegisters.reset_flags (channelDescriptor 0))).active0 = 0 ∧
      (applyWrites ⟨0, 0, 0, 7, 7, 7, 0, 0⟩
          (SharedRegisters.reset_flags (channelDescriptor 0))).busy0 = 0 ∧
      (applyWrites ⟨0, 0, 0, 7, 7, 7, 0, 0⟩
          (SharedRegisters.reset_flags (channelDescriptor 0))).enableset0
        = 0 ∧
      (applyWrites ⟨0, 0, 0, 7, 7, 7, 0, 0⟩
          (SharedRegisters.reset_flags (channelDescriptor 0))).inten0 = 0 ∧
      (applyWrites ⟨0, 0, 0, 7, 7, 7, 0, 0⟩
          (SharedRegisters.reset_flags (channelDescriptor 0))).settrig0
        = 0)) :=
  ⟨by decide,
   reset_flags_sequential_order (channelDescriptor 0) ⟨0, 0, 0, 7, 7, 7, 0, 0⟩
     (by decide)⟩

/-- C10: `Clock::new` panics exactly when `mstsclhigh` or `mstscllow` lies
outside `2..=9`; on success it stores `divval` unchanged and the two SCL
fields decremented by 2. -/
theorem clock_new_range_and_fields (d h l : Nat) :
    Clock.new d h l =
      (if 2 ≤ h ∧ h ≤ 9 ∧ 2 ≤ l ∧ l ≤ 9 then
        some { divval := d, mstsclhigh := h - 2, mstscllow := l - 2 }
      else none) := by
  simp only [Clock.new, Bool.and_eq_true, decide_eq_true_eq]
  split_ifs <;> first | rfl | omega

end Lpc8xx
